import Mathlib

/-!
Verification of the GPS clock time pipeline of this repository
(GPS-CLOCK.py and GPS-CLOCK2.py, class LEDClockApplication).

The per-tick pipeline lives in `update_time` (GPS-CLOCK.py lines 66-82,
GPS-CLOCK2.py lines 131-149): while serial bytes are waiting it reads one
line, parses it with pynmea2, and on the first RMC message whose
`timestamp` and `datestamp` fields are populated it combines them into a
datetime, converts it from UTC to the configured zone with pytz, writes
the display and breaks; `pynmea2.ParseError` and `UnicodeDecodeError` are
caught and the loop continues; finally `master.after(1000, update_time)`
re-arms the one-second schedule.  `pytz.timezone` raising
`UnknownTimeZoneError` is not caught by any handler, so it aborts the
whole call before the reschedule line.

The embedding models each buffered line by its pynmea2 parse outcome
(`ParseResult`), the pytz zone database by a partial map from zone names
to offset functions, and one call of `update_time` by the executable
function `update_time` below, which returns the value written to the
display (if any), how many buffered lines were read, and whether the
reschedule line was reached.
-/

namespace GPSClock

/-- Time-of-day as pynmea2 returns `msg.timestamp` (a `datetime.time`;
the optional fractional second is not used by the clock). -/
structure Time where
  hour : Nat
  minute : Nat
  second : Nat
deriving DecidableEq

/-- The raw `ddmmyy` digits of the RMC date field, before
`datetime.strptime(.., [percent]d[percent]m[percent]y)` turns them into a date. -/
structure DateRaw where
  day : Nat
  month : Nat
  yy : Nat
deriving DecidableEq

/-- A civil date as `datetime.date` carries it. -/
structure Date where
  year : Nat
  month : Nat
  day : Nat
deriving DecidableEq

/-- A civil datetime as `datetime.datetime` carries it
(`datetime.combine(msg.datestamp, msg.timestamp)`). -/
structure DateTime where
  year : Nat
  month : Nat
  day : Nat
  hour : Nat
  minute : Nat
  second : Nat
deriving DecidableEq

/-- CPython `strptime` two-digit-year rule used by pynmea2 for the RMC
date field: values 0-68 are in 2000-2068, values 69-99 in 1969-1999. -/
def mapYear (yy : Nat) : Nat :=
  if yy ≤ 68 then 2000 + yy else 1900 + yy

/-- pynmea2's `msg.datestamp` property: `strptime(field, d-m-y).date()`
applied to the raw `ddmmyy` digits.  `strptime` validates the digits
(it raises `ValueError` on an out-of-range day or month, a case modelled
by `ParseResult.rmcFieldError` below, since that error is not caught),
so in a faithful trace this function is only applied to digits that
`strptime` accepted; the year mapping is what it computes on them. -/
def RMC.datestamp (d : DateRaw) : Date :=
  ⟨mapYear d.yy, d.month, d.day⟩

/-- `datetime.combine(msg.datestamp, msg.timestamp)`
(GPS-CLOCK.py line 72, GPS-CLOCK2.py line 137). -/
def combine (d : Date) (t : Time) : DateTime :=
  ⟨d.year, d.month, d.day, t.hour, t.minute, t.second⟩

/-- Gregorian leap-year rule of the `datetime` module's proleptic calendar. -/
def isLeap (y : Nat) : Bool :=
  y % 4 == 0 && (y % 100 != 0 || y % 400 == 0)

/-- Month lengths of the `datetime` module's proleptic Gregorian calendar. -/
def daysInMonth (y m : Nat) : Nat :=
  if m = 2 then (if isLeap y then 29 else 28)
  else if m = 4 ∨ m = 6 ∨ m = 9 ∨ m = 11 then 30
  else 31

/-- The calendar day after `d`. -/
def Date.next (d : Date) : Date :=
  if d.day < daysInMonth d.year d.month then ⟨d.year, d.month, d.day + 1⟩
  else if d.month < 12 then ⟨d.year, d.month + 1, 1⟩
  else ⟨d.year + 1, 1, 1⟩

/-- The calendar day before `d`. -/
def Date.prev (d : Date) : Date :=
  if 1 < d.day then ⟨d.year, d.month, d.day - 1⟩
  else if 1 < d.month then ⟨d.year, d.month - 1, daysInMonth d.year (d.month - 1)⟩
  else ⟨d.year - 1, 12, 31⟩

/-- A pytz zone, as the clock uses it: the zone's UTC offset in minutes as
a function of the UTC instant (this is how `astimezone` on a pytz zone
resolves DST - the offset is chosen from the UTC instant being converted). -/
abbrev Tz := DateTime → Int

/-- The pytz UTC singleton: offset zero always. -/
def pytzUTC : Tz := fun _ => 0

/-- `datetime_obj.replace(tzinfo=pytz.UTC).astimezone(timezone)`
(GPS-CLOCK.py line 74, GPS-CLOCK2.py line 139): the civil fields are
shifted by the zone's UTC offset at that instant.  Every zone offset in
the pytz database is strictly less than one day, so at most one day
boundary is crossed; seconds are unchanged because these offsets are
whole minutes. -/
def astimezone (tz : Tz) (dt : DateTime) : DateTime :=
  let off : Int := tz dt
  let m : Int := (dt.hour : Int) * 60 + (dt.minute : Int) + off
  if m < 0 then
    let d := Date.prev ⟨dt.year, dt.month, dt.day⟩
    let m2 := (m + 1440).toNat
    ⟨d.year, d.month, d.day, m2 / 60, m2 % 60, dt.second⟩
  else if 1440 ≤ m then
    let d := Date.next ⟨dt.year, dt.month, dt.day⟩
    let m2 := (m - 1440).toNat
    ⟨d.year, d.month, d.day, m2 / 60, m2 % 60, dt.second⟩
  else
    let m2 := m.toNat
    ⟨dt.year, dt.month, dt.day, m2 / 60, m2 % 60, dt.second⟩

/-- The pynmea2 parse outcome of one buffered line, as `update_time`
distinguishes them.  pynmea2 converts fields lazily: `__getattr__`
returns `None` for an empty field and otherwise runs the
`strptime`-based converter at attribute access time, so evaluating
`msg.timestamp and msg.datestamp` classifies an RMC line as

- `rmc status timestamp datestamp` when the accessed conversions
  succeed or the field is empty (`none`); a populated value is one
  `strptime` accepted, and in Python 3.5+ a populated `datetime.time`
  or `datetime.date` is always truthy, so the code's test is exactly
  "both populated";
- `rmcFieldError` when a non-empty time or date field fails its
  converter: the access raises a plain `ValueError` - not caught by
  `except pynmea2.ParseError` (ParseError is a ValueError subclass,
  not the reverse), so the tick aborts there; an empty `timestamp`
  short-circuits the `and`, so malformed date content behind an empty
  time field is never touched and the line is just an `rmc` skip;
- `other` for any other successfully parsed sentence type;
- `parseError` for a line on which `pynmea2.parse` itself raised
  `ParseError` (checksum or structural failure), which the code catches
  and skips. -/
inductive ParseResult where
  | rmc (status : Char) (timestamp : Option Time) (datestamp : Option DateRaw)
  | rmcFieldError
  | other
  | parseError
deriving DecidableEq

/-- Whether `update_time`'s `if` accepts this line: an RMC message with
both `timestamp` and `datestamp` populated.  The fix-status field is not
part of the test (GPS-CLOCK.py line 71, GPS-CLOCK2.py line 136). -/
def isHit : ParseResult → Bool
  | ParseResult.rmc _ (some _) (some _) => true
  | _ => false

/-- Whether this line aborts the tick with an uncaught `ValueError` from
a malformed non-empty time or date field (see `ParseResult`). -/
def isFieldError : ParseResult → Bool
  | ParseResult.rmcFieldError => true
  | _ => false

/-- Whether this line ends the read loop: either accepted (`isHit`) or
aborting the tick (`isFieldError`).  Every other line is skipped and the
loop continues. -/
def isStop (r : ParseResult) : Bool :=
  isHit r || isFieldError r

/-- The first record of the batch at which the read loop ends - the
first accepted or field-erroring RMC - or `none` when the whole batch is
skipped. -/
def firstStop : List ParseResult → Option ParseResult
  | [] => none
  | r :: rest => if isStop r then some r else firstStop rest

/-- What one call of `update_time` did. -/
structure TickOut where
  /-- The value written to the display this tick, `none` when the label
  was not touched. -/
  result : Option DateTime
  /-- How many buffered lines were read (and parsed) this tick; lines
  after a `break` or an uncaught error stay in the serial buffer. -/
  consumed : Nat
  /-- Whether `master.after(1000, self.update_time)` was reached. -/
  rescheduled : Bool
deriving DecidableEq

/-- One call of `update_time` (GPS-CLOCK.py lines 66-82, GPS-CLOCK2.py
lines 131-149) on the list of buffered lines, given the pytz zone
database `db` and the configured zone name.  On the first accepted RMC
line the code combines date and time, looks the zone up - an unknown
name raises `UnknownTimeZoneError`, which no handler catches, so the
call dies before the reschedule line - converts, writes the display and
breaks.  A `rmcFieldError` line likewise aborts the call with an
uncaught `ValueError` raised inside the `if` test: the line was read,
nothing is accepted, and the reschedule line is never reached.  Caught
parse failures and non-RMC sentences just continue the loop. -/
def update_time (db : String → Option Tz) (zone : String) :
    List ParseResult → TickOut
  | [] => ⟨none, 0, true⟩
  | ParseResult.rmc _ (some t) (some d) :: _ =>
    match db zone with
    | none => ⟨none, 1, false⟩
    | some tz => ⟨some (astimezone tz (combine (RMC.datestamp d) t)), 1, true⟩
  | ParseResult.rmcFieldError :: _ => ⟨none, 1, false⟩
  | _ :: rest =>
    let o := update_time db zone rest
    ⟨o.result, o.consumed + 1, o.rescheduled⟩

/-- The text shown by the clock after a tick: `update_time` only writes
the label inside the accepted-RMC branch, so a tick with no result keeps
the previous value. -/
def labelAfter (prev : Option DateTime) (o : TickOut) : Option DateTime :=
  match o.result with
  | some dt => some dt
  | none => prev

/-- A tiny concrete zone database for evaluating the model: it knows
only the name UTC, like pytz it returns nothing for unknown names. -/
def miniDB : String → Option Tz :=
  fun z => if z = "UTC" then some pytzUTC else none

/-- The one zone name `miniDB` knows. -/
def utcName : String := "UTC"

/-- A name that is not in the pytz zone database. -/
def noZone : String := "Mars/Phobos"

/-- The fix-status letter for a valid fix. -/
def fixValid : Char := 'A'

/-- The fix-status letter for an invalid fix (void warning). -/
def fixVoid : Char := 'V'

/-- Events that reach the clock's scheduling state in GPS-CLOCK2.py,
counted by how many pending `after` callbacks for `update_time` exist:
a timer firing consumes its callback and `update_time` re-arms exactly
one (line 149); `set_clock_mode` (lines 117-125) calls `update_time`
directly, which arms one more callback on top of those already pending;
`set_time_zone` (lines 127-129) does not call `update_time`. -/
inductive UiEvent where
  | timerFire
  | setClockMode
  | setTimeZone
deriving DecidableEq

/-- Pending `update_time` callbacks after one event. -/
def pendingAfter : Nat → UiEvent → Nat
  | p, UiEvent.timerFire => p
  | p, UiEvent.setClockMode => p + 1
  | p, UiEvent.setTimeZone => p

/-- Pending `update_time` callbacks after a sequence of events, starting
from the single chain armed by `__init__`'s direct `update_time` call
(GPS-CLOCK2.py line 55).  Each pending callback fires once per second
and re-arms itself, so this count is the number of update cycles run
per second. -/
def pendingTimers (evs : List UiEvent) : Nat :=
  evs.foldl pendingAfter 1

end GPSClock

namespace GPSClock

theorem update_time_nil (db : String → Option Tz) (zone : String) :
    update_time db zone [] = ⟨none, 0, true⟩ := rfl

theorem update_time_cons_hit (db : String → Option Tz) (zone : String)
    (s : Char) (t : Time) (d : DateRaw) (rest : List ParseResult) :
    update_time db zone (ParseResult.rmc s (some t) (some d) :: rest) =
      match db zone with
      | none => ⟨none, 1, false⟩
      | some tz => ⟨some (astimezone tz (combine (RMC.datestamp d) t)), 1, true⟩ := by
  simp [update_time]

/-- An RMC line whose non-empty time or date field fails its converter
aborts the call: the line was consumed, nothing is accepted, the
reschedule line is not reached. -/
theorem update_time_cons_fieldError (db : String → Option Tz) (zone : String)
    (rest : List ParseResult) :
    update_time db zone (ParseResult.rmcFieldError :: rest) = ⟨none, 1, false⟩ := by
  simp [update_time]

theorem update_time_cons_skip (db : String → Option Tz) (zone : String)
    (r : ParseResult) (rest : List ParseResult) (h : isStop r = false) :
    update_time db zone (r :: rest) =
      ⟨(update_time db zone rest).result, (update_time db zone rest).consumed + 1,
        (update_time db zone rest).rescheduled⟩ := by
  cases r with
  | rmc s ts ds =>
    cases ts with
    | none => cases ds <;> simp [update_time]
    | some t =>
      cases ds with
      | none => simp [update_time]
      | some d => simp [isStop, isHit] at h
  | rmcFieldError => simp [isStop, isFieldError] at h
  | other => simp [update_time]
  | parseError => simp [update_time]

theorem isStop_shape (r : ParseResult) (h : isStop r = true) :
    r = ParseResult.rmcFieldError ∨
      ∃ s t d, r = ParseResult.rmc s (some t) (some d) := by
  cases r with
  | rmc s ts ds =>
    cases ts with
    | none => cases ds <;> simp [isStop, isHit, isFieldError] at h
    | some t =>
      cases ds with
      | none => simp [isStop, isHit, isFieldError] at h
      | some d => exact Or.inr ⟨s, t, d, rfl⟩
  | rmcFieldError => exact Or.inl rfl
  | other => simp [isStop, isHit, isFieldError] at h
  | parseError => simp [isStop, isHit, isFieldError] at h

theorem firstStop_isStop (lines : List ParseResult) (r : ParseResult)
    (h : firstStop lines = some r) : isStop r = true := by
  induction lines with
  | nil => simp [firstStop] at h
  | cons x rest ih =>
    by_cases hx : isStop x = true
    · simp only [firstStop] at h
      rw [if_pos hx] at h
      cases h
      exact hx
    · simp only [firstStop] at h
      rw [if_neg hx] at h
      exact ih h

theorem firstStop_some_of_mem (lines : List ParseResult) (r : ParseResult)
    (hm : r ∈ lines) (hr : isStop r = true) :
    ∃ x, firstStop lines = some x := by
  induction lines with
  | nil => simp at hm
  | cons y rest ih =>
    by_cases hy : isStop y = true
    · refine ⟨y, ?_⟩
      simp only [firstStop]
      rw [if_pos hy]
    · rcases List.mem_cons.mp hm with heq | hmem
      · exact absurd (heq ▸ hr) hy
      · obtain ⟨x, hx⟩ := ih hmem
        refine ⟨x, ?_⟩
        simp only [firstStop]
        rw [if_neg hy]
        exact hx

theorem update_time_no_stop (db : String → Option Tz) (zone : String)
    (lines : List ParseResult) (h : firstStop lines = none) :
    update_time db zone lines = ⟨none, lines.length, true⟩ := by
  induction lines with
  | nil => rfl
  | cons r rest ih =>
    have hr : isStop r = false := by
      by_cases hx : isStop r = true
      · simp only [firstStop] at h
        rw [if_pos hx] at h
        exact absurd h (by simp)
      · simpa using hx
    have h2 : firstStop rest = none := by
      simp only [firstStop] at h
      rwa [if_neg (by simp [hr])] at h
    rw [update_time_cons_skip db zone r rest hr, ih h2]
    simp [List.length_cons]

theorem update_time_firstStop_fieldError (db : String → Option Tz)
    (zone : String) (lines : List ParseResult)
    (h : firstStop lines = some ParseResult.rmcFieldError) :
    (update_time db zone lines).result = none ∧
      (update_time db zone lines).rescheduled = false := by
  induction lines with
  | nil => simp [firstStop] at h
  | cons r rest ih =>
    by_cases hx : isStop r = true
    · simp only [firstStop] at h
      rw [if_pos hx] at h
      have h2 := Option.some.inj h
      subst h2
      rw [update_time_cons_fieldError]
      exact ⟨rfl, rfl⟩
    · have hr : isStop r = false := by simpa using hx
      simp only [firstStop] at h
      rw [if_neg hx] at h
      rw [update_time_cons_skip db zone r rest hr]
      exact ⟨(ih h).1, (ih h).2⟩

theorem update_time_firstStop_hit (db : String → Option Tz) (zone : String)
    (lines : List ParseResult) (s : Char) (t : Time) (d : DateRaw)
    (h : firstStop lines = some (ParseResult.rmc s (some t) (some d))) :
    (update_time db zone lines).result
        = (db zone).map (fun tz => astimezone tz (combine (RMC.datestamp d) t)) ∧
      (update_time db zone lines).rescheduled = (db zone).isSome := by
  induction lines with
  | nil => simp [firstStop] at h
  | cons r rest ih =>
    by_cases hx : isStop r = true
    · simp only [firstStop] at h
      rw [if_pos hx] at h
      have h2 := Option.some.inj h
      subst h2
      rw [update_time_cons_hit]
      cases hdb : db zone with
      | none => exact ⟨rfl, rfl⟩
      | some tz => exact ⟨rfl, rfl⟩
    · have hr : isStop r = false := by simpa using hx
      simp only [firstStop] at h
      rw [if_neg hx] at h
      rw [update_time_cons_skip db zone r rest hr]
      exact ⟨(ih h).1, (ih h).2⟩

theorem result_none_of_no_hit (db : String → Option Tz) (zone : String)
    (lines : List ParseResult) (h : ∀ r ∈ lines, isHit r = false) :
    (update_time db zone lines).result = none := by
  induction lines with
  | nil => rfl
  | cons r rest ih =>
    have ih2 : (update_time db zone rest).result = none :=
      ih (fun x hx => h x (List.mem_cons_of_mem r hx))
    cases r with
    | rmc s ts ds =>
      cases ts with
      | none =>
        rw [update_time_cons_skip db zone (ParseResult.rmc s none ds) rest
          (by cases ds <;> rfl)]
        exact ih2
      | some t =>
        cases ds with
        | none =>
          rw [update_time_cons_skip db zone (ParseResult.rmc s (some t) none) rest rfl]
          exact ih2
        | some d =>
          exact absurd (h _ (List.mem_cons_self _ _)) (by simp [isHit])
    | rmcFieldError =>
      rw [update_time_cons_fieldError]
    | other =>
      rw [update_time_cons_skip db zone ParseResult.other rest rfl]
      exact ih2
    | parseError =>
      rw [update_time_cons_skip db zone ParseResult.parseError rest rfl]
      exact ih2

theorem astimezone_zero (dt : DateTime) (h1 : dt.hour < 24) (h2 : dt.minute < 60) :
    astimezone pytzUTC dt = dt := by
  obtain ⟨y, mo, da, h, mi, s⟩ := dt
  have h1' : h < 24 := h1
  have h2' : mi < 60 := h2
  simp only [astimezone, pytzUTC]
  split
  · exfalso
    omega
  · split
    · exfalso
      omega
    · simp only [DateTime.mk.injEq]
      refine ⟨trivial, trivial, trivial, by omega, by omega, trivial⟩

end GPSClock

namespace GPSClock

/-- Claim C1, corrected: a tick produces a result exactly when the zone
name is in the database and the first decisive record of the batch - the
first RMC that is either populated (time and date both) or field-erroring
- is a populated one.  The fix-validity flag is not part of the test, so
a fix-invalid (V) sentence with populated fields also produces a result,
while a malformed-field RMC earlier in the batch aborts the tick with no
result even when a populated sentence follows. -/
theorem update_time_result_iff_time_bearing (db : String → Option Tz)
    (zone : String) (lines : List ParseResult) :
    (update_time db zone lines).result.isSome = true ↔
      ((db zone).isSome = true ∧
        ∃ s t d, firstStop lines = some (ParseResult.rmc s (some t) (some d))) := by
  constructor
  · intro hres
    rcases hfs : firstStop lines with _ | r
    · rw [update_time_no_stop db zone lines hfs] at hres
      simp at hres
    · rcases isStop_shape r (firstStop_isStop lines r hfs) with hfe | ⟨s, t, d, hr⟩
      · subst hfe
        rw [(update_time_firstStop_fieldError db zone lines hfs).1] at hres
        simp at hres
      · subst hr
        rw [(update_time_firstStop_hit db zone lines s t d hfs).1] at hres
        cases hdb : db zone with
        | none =>
          rw [hdb] at hres
          simp at hres
        | some tz => exact ⟨rfl, s, t, d, rfl⟩
  · rintro ⟨hdb, s, t, d, hfs⟩
    rw [(update_time_firstStop_hit db zone lines s t d hfs).1]
    cases hdb2 : db zone with
    | none =>
      rw [hdb2] at hdb
      simp at hdb
    | some tz => rfl

/-- Claim C1, counterexample: a batch whose only time-bearing sentence is
a well-formed RMC with fix flag V still yields a result and updates the
displayed time, where the claim says it yields no result. -/
theorem fix_invalid_sentence_yields_result :
    (update_time miniDB utcName
        [ParseResult.rmc fixVoid (some ⟨12, 35, 19⟩) (some ⟨23, 3, 94⟩)]).result
      = some ⟨1994, 3, 23, 12, 35, 19⟩ := by
  decide

/-- Claim C2, corrected: when a time-bearing sentence is found and the
configured zone name is unknown, there is no fallback to UTC - the
uncaught zone lookup error aborts the tick: no result, the display keeps
its previous value, and the reschedule line is never reached. -/
theorem unknown_zone_stops_clock (db : String → Option Tz) (zone : String)
    (lines : List ParseResult) (prev : Option DateTime)
    (h1 : db zone = none)
    (h2 : ∃ s t d, ParseResult.rmc s (some t) (some d) ∈ lines) :
    (update_time db zone lines).result = none ∧
      (update_time db zone lines).rescheduled = false ∧
      labelAfter prev (update_time db zone lines) = prev := by
  obtain ⟨s, t, d, hm⟩ := h2
  obtain ⟨r, hfs⟩ := firstStop_some_of_mem lines _ hm rfl
  rcases isStop_shape r (firstStop_isStop lines r hfs) with hfe | ⟨s2, t2, d2, hr⟩
  · subst hfe
    obtain ⟨ha, hb⟩ := update_time_firstStop_fieldError db zone lines hfs
    exact ⟨ha, hb, by simp [labelAfter, ha]⟩
  · subst hr
    obtain ⟨ha, hb⟩ := update_time_firstStop_hit db zone lines s2 t2 d2 hfs
    rw [h1] at ha hb
    simp only [Option.map_none', Option.isSome_none] at ha hb
    exact ⟨ha, hb, by simp [labelAfter, ha]⟩

/-- Claim C2, witness: a concrete valid sentence with an unknown zone
name aborts the tick with no result, an unchanged display and no
reschedule. -/
theorem unknown_zone_stops_clock_witness :
    (update_time miniDB noZone
        [ParseResult.rmc fixValid (some ⟨1, 2, 3⟩) (some ⟨4, 5, 21⟩)]).result = none ∧
      (update_time miniDB noZone
        [ParseResult.rmc fixValid (some ⟨1, 2, 3⟩) (some ⟨4, 5, 21⟩)]).rescheduled = false ∧
      labelAfter (some ⟨2020, 1, 1, 0, 0, 0⟩)
        (update_time miniDB noZone
          [ParseResult.rmc fixValid (some ⟨1, 2, 3⟩) (some ⟨4, 5, 21⟩)])
        = some ⟨2020, 1, 1, 0, 0, 0⟩ :=
  unknown_zone_stops_clock miniDB noZone _ _ rfl
    ⟨fixValid, ⟨1, 2, 3⟩, ⟨4, 5, 21⟩, by simp⟩

/-- Claim C2, counterexample: with a valid time-bearing sentence and an
unknown zone name the tick yields no result at all, where the claim says
it falls back to UTC and still shows a result. -/
theorem unknown_zone_no_fallback_cex :
    (update_time miniDB noZone
        [ParseResult.rmc fixValid (some ⟨10, 20, 30⟩) (some ⟨15, 7, 23⟩)]).result = none ∧
      (update_time miniDB noZone
        [ParseResult.rmc fixValid (some ⟨10, 20, 30⟩) (some ⟨15, 7, 23⟩)]).rescheduled
        = false := by
  decide

/-- Claim C3, corrected: the reschedule line is reached on every tick
except when the tick aborts, which happens exactly when the batch's first
decisive record is a malformed-field RMC (uncaught ValueError), or is an
accepted time-bearing RMC while the zone name is unknown (uncaught
UnknownTimeZoneError); in both cases the schedule stops. -/
theorem rescheduled_iff_no_zone_error (db : String → Option Tz)
    (zone : String) (lines : List ParseResult) :
    (update_time db zone lines).rescheduled = false ↔
      (firstStop lines = some ParseResult.rmcFieldError ∨
        (∃ s t d, firstStop lines = some (ParseResult.rmc s (some t) (some d)) ∧
          db zone = none)) := by
  rcases hfs : firstStop lines with _ | r
  · rw [update_time_no_stop db zone lines hfs]
    simp [hfs]
  · rcases isStop_shape r (firstStop_isStop lines r hfs) with hfe | ⟨s, t, d, hr⟩
    · subst hfe
      rw [(update_time_firstStop_fieldError db zone lines hfs).2]
      simp [hfs]
    · subst hr
      rw [(update_time_firstStop_hit db zone lines s t d hfs).2]
      cases hdb : db zone with
      | none => exact iff_of_true rfl (Or.inr ⟨s, t, d, rfl, rfl⟩)
      | some tz =>
        constructor
        · intro hx
          simp at hx
        · rintro (hx | ⟨s2, t2, d2, hx2, hz⟩)
          · simp at hx
          · simp at hz

/-- Claim C3, counterexample: a concrete batch (one unrecognized sentence
followed by a valid time-bearing one) with an unknown zone name ends the
tick without rescheduling, where the claim says the next tick is always
scheduled. -/
theorem zone_error_stops_schedule_cex :
    (update_time miniDB noZone
        [ParseResult.other,
          ParseResult.rmc fixValid (some ⟨0, 0, 1⟩) (some ⟨2, 1, 21⟩)]).rescheduled
      = false := by
  decide

/-- Claim C4, code bug: one `set_clock_mode` call arms a second
self-re-arming callback chain on top of the one from startup, so two
update cycles run per second afterwards - the display is no longer
updated at most once per second. -/
theorem set_clock_mode_doubles_rate :
    pendingTimers [UiEvent.setClockMode] = 2 := by
  rfl

/-- Claim C5, corrected: when every record before the first populated
RMC sentence is a skipped one (neither populated nor field-erroring), the
tick's result is the zone conversion of that first populated sentence -
first in the sense of the code's test, which ignores the fix flag - and
later records in the batch never change the result.  A malformed-field
RMC before it instead aborts the tick with no result. -/
theorem first_time_bearing_sentence_wins (db : String → Option Tz)
    (zone : String) (tz : Tz) (pre : List ParseResult) (s : Char) (t : Time)
    (d : DateRaw) (rest : List ParseResult) (h1 : db zone = some tz)
    (h2 : ∀ r ∈ pre, isStop r = false) :
    (update_time db zone (pre ++ ParseResult.rmc s (some t) (some d) :: rest)).result
      = some (astimezone tz (combine (RMC.datestamp d) t)) := by
  induction pre with
  | nil =>
    rw [List.nil_append]
    simp only [update_time_cons_hit, h1]
  | cons r pre' ih =>
    rw [List.cons_append,
      update_time_cons_skip db zone r _ (h2 r (List.mem_cons_self r pre'))]
    exact ih (fun x hx => h2 x (List.mem_cons_of_mem r hx))

/-- Claim C5, witness: with one unrecognized sentence first, the result
is the conversion of the next time-bearing sentence, not of the later
one. -/
theorem first_time_bearing_sentence_wins_witness :
    (update_time miniDB utcName
        ([ParseResult.other] ++
          ParseResult.rmc fixVoid (some ⟨7, 8, 9⟩) (some ⟨10, 11, 22⟩) ::
            [ParseResult.rmc fixValid (some ⟨1, 1, 1⟩) (some ⟨2, 2, 22⟩)])).result
      = some (astimezone pytzUTC (combine (RMC.datestamp ⟨10, 11, 22⟩) ⟨7, 8, 9⟩)) :=
  first_time_bearing_sentence_wins miniDB utcName pytzUTC [ParseResult.other]
    fixVoid ⟨7, 8, 9⟩ ⟨10, 11, 22⟩
    [ParseResult.rmc fixValid (some ⟨1, 1, 1⟩) (some ⟨2, 2, 22⟩)] rfl (by decide)

/-- Claim C5, counterexample: in a batch whose first valid (fix A)
sentence is the second entry, the result is not the conversion of that
first valid sentence - the code took the earlier fix-invalid one. -/
theorem fix_invalid_first_overrides_valid_cex :
    (update_time miniDB utcName
        [ParseResult.rmc fixVoid (some ⟨1, 0, 0⟩) (some ⟨1, 1, 21⟩),
          ParseResult.rmc fixValid (some ⟨2, 0, 0⟩) (some ⟨1, 1, 21⟩)]).result
      ≠ some (astimezone pytzUTC (combine (RMC.datestamp ⟨1, 1, 21⟩) ⟨2, 0, 0⟩)) := by
  decide

/-- Claim C6, corrected: the loop breaks on the first accepted
time-bearing sentence; the records after it are not read or parsed during
that tick (they stay in the serial buffer), so when an acceptance occurs
- that is, when every earlier record was a skipped one - exactly the
prefix up to and including the first hit is consumed. -/
theorem loop_breaks_after_first_hit (db : String → Option Tz) (zone : String)
    (pre : List ParseResult) (s : Char) (t : Time) (d : DateRaw)
    (rest : List ParseResult) (h : ∀ r ∈ pre, isStop r = false) :
    (update_time db zone (pre ++ ParseResult.rmc s (some t) (some d) :: rest)).consumed
      = pre.length + 1 := by
  induction pre with
  | nil =>
    rw [List.nil_append]
    simp only [update_time_cons_hit]
    cases db zone <;> rfl
  | cons r pre' ih =>
    rw [List.cons_append,
      update_time_cons_skip db zone r _ (h r (List.mem_cons_self r pre'))]
    have hr := ih (fun x hx => h x (List.mem_cons_of_mem r hx))
    simp [hr, List.length_cons]

/-- Claim C6, witness: with one unparseable line before the hit and one
record after it, exactly two lines are consumed. -/
theorem loop_breaks_after_first_hit_witness :
    (update_time miniDB utcName
        ([ParseResult.parseError] ++
          ParseResult.rmc fixValid (some ⟨3, 4, 5⟩) (some ⟨5, 6, 21⟩) ::
            [ParseResult.parseError])).consumed = 2 :=
  loop_breaks_after_first_hit miniDB utcName [ParseResult.parseError] fixValid
    ⟨3, 4, 5⟩ ⟨5, 6, 21⟩ [ParseResult.parseError] (by decide)

/-- Claim C6, counterexample: in a two-record batch whose first record is
accepted, only one record is consumed - the remaining record is not
decoded during that tick, where the claim says it still is. -/
theorem remaining_records_not_decoded_cex :
    (update_time miniDB utcName
        [ParseResult.rmc fixValid (some ⟨3, 4, 5⟩) (some ⟨5, 6, 21⟩),
          ParseResult.parseError]).consumed = 1 ∧
      ([ParseResult.rmc fixValid (some ⟨3, 4, 5⟩) (some ⟨5, 6, 21⟩),
          ParseResult.parseError] : List ParseResult).length = 2 := by
  decide

/-- Claim C7, corrected: the two-digit year is mapped by the CPython
`strptime` pivot - 00 to 68 becomes 2000+yy, 69 to 99 becomes 1900+yy -
so the decoded year lies in the 1969-2068 window, not uniformly in
2000-2099. -/
theorem datestamp_year_pivot (dd mm yy : Nat) (h : yy ≤ 99) :
    (RMC.datestamp ⟨dd, mm, yy⟩).year
        = (if yy ≤ 68 then 2000 + yy else 1900 + yy)
      ∧ 1969 ≤ (RMC.datestamp ⟨dd, mm, yy⟩).year
      ∧ (RMC.datestamp ⟨dd, mm, yy⟩).year ≤ 2068 := by
  refine ⟨rfl, ?_, ?_⟩ <;> simp only [RMC.datestamp, mapYear] <;> split <;> omega

/-- Claim C7, witness: the pivot evaluated at the date field 23-03-94. -/
theorem datestamp_year_pivot_witness :
    (RMC.datestamp ⟨23, 3, 94⟩).year
        = (if (94 : Nat) ≤ 68 then 2000 + 94 else 1900 + 94)
      ∧ 1969 ≤ (RMC.datestamp ⟨23, 3, 94⟩).year
      ∧ (RMC.datestamp ⟨23, 3, 94⟩).year ≤ 2068 :=
  datestamp_year_pivot 23 3 94 (by decide)

/-- Claim C7, counterexample: year digits 94 decode to 1994 (as the
spec's own scenario for the 230394 date field expects), not to
2000+94. -/
theorem year_94_not_in_2000_window_cex :
    RMC.datestamp ⟨23, 3, 94⟩ = ⟨1994, 3, 23⟩ ∧
      (RMC.datestamp ⟨23, 3, 94⟩).year ≠ 2000 + 94 := by
  decide

/-- Claim C8, corrected: a batch with no RMC sentence carrying both time
and date - empty, all-Other, all-unparseable, or fix-invalid sentences
with missing fields - yields nothing and the display keeps its previous
value; but a fix-invalid sentence with populated fields is not in this
class (see the counterexample). -/
theorem no_time_bearing_holds_display (db : String → Option Tz)
    (zone : String) (lines : List ParseResult) (prev : Option DateTime)
    (h : ∀ r ∈ lines, isHit r = false) :
    (update_time db zone lines).result = none ∧
      labelAfter prev (update_time db zone lines) = prev := by
  have hres := result_none_of_no_hit db zone lines h
  exact ⟨hres, by simp [labelAfter, hres]⟩

/-- Claim C8, witness: an Other record, an unparseable record and an RMC
with empty time and date fields produce no result and leave the display
unchanged. -/
theorem no_time_bearing_holds_display_witness :
    (update_time miniDB utcName
        [ParseResult.other, ParseResult.parseError,
          ParseResult.rmc fixVoid none none]).result = none ∧
      labelAfter (some ⟨2024, 6, 8, 12, 0, 0⟩)
        (update_time miniDB utcName
          [ParseResult.other, ParseResult.parseError,
            ParseResult.rmc fixVoid none none]) = some ⟨2024, 6, 8, 12, 0, 0⟩ :=
  no_time_bearing_holds_display miniDB utcName _ _ (by decide)

/-- Claim C8, counterexample: an all-fix-invalid batch whose sentence
carries time and date does produce a result, where the claim says every
all-fix-invalid batch yields nothing. -/
theorem fix_invalid_batch_updates_display_cex :
    (update_time miniDB utcName
        [ParseResult.rmc fixVoid (some ⟨6, 7, 8⟩) (some ⟨9, 10, 21⟩)]).result
      ≠ none := by
  decide

/-- Claim C9, confirmed: decoding a well-formed fix-valid time-bearing
sentence and converting with the zone resolving to UTC (offset zero)
returns exactly the sentence's own calendar fields - year as the mapped
two-digit year, month, day, hour, minute, second. -/
theorem utc_conversion_round_trip (db : String → Option Tz) (zone : String)
    (t : Time) (d : DateRaw) (h : db zone = some pytzUTC)
    (h1 : t.hour < 24) (h2 : t.minute < 60) :
    (update_time db zone [ParseResult.rmc fixValid (some t) (some d)]).result
      = some ⟨mapYear d.yy, d.month, d.day, t.hour, t.minute, t.second⟩ := by
  simp only [update_time_cons_hit, h]
  rw [astimezone_zero (combine (RMC.datestamp d) t) h1 h2]
  rfl

/-- Claim C9, witness: the spec's own scenario sentence - 12:35:19 on the
date field 230394 with zone UTC - displays 1994-03-23 12:35:19. -/
theorem utc_conversion_round_trip_witness :
    (update_time miniDB utcName
        [ParseResult.rmc fixValid (some ⟨12, 35, 19⟩) (some ⟨23, 3, 94⟩)]).result
      = some ⟨mapYear 94, 3, 23, 12, 35, 19⟩ :=
  utc_conversion_round_trip miniDB utcName ⟨12, 35, 19⟩ ⟨23, 3, 94⟩ rfl
    (by decide) (by decide)

/-- Claim C10, confirmed: a fix-valid sentence whose time-of-day is
00:00:00 is accepted like any other - the tick's result is the zone
conversion of that midnight instant, with no special-casing. -/
theorem all_zero_time_accepted (db : String → Option Tz) (zone : String)
    (tz : Tz) (d : DateRaw) (rest : List ParseResult) (h : db zone = some tz) :
    (update_time db zone
        (ParseResult.rmc fixValid (some ⟨0, 0, 0⟩) (some d) :: rest)).result
      = some (astimezone tz (combine (RMC.datestamp d) ⟨0, 0, 0⟩)) := by
  simp only [update_time_cons_hit, h]

/-- Claim C10, witness: the all-zero time on date field 010121 with zone
UTC displays midnight 2021-01-01. -/
theorem all_zero_time_accepted_witness :
    (update_time miniDB utcName
        [ParseResult.rmc fixValid (some ⟨0, 0, 0⟩) (some ⟨1, 1, 21⟩)]).result
      = some (astimezone pytzUTC (combine (RMC.datestamp ⟨1, 1, 21⟩) ⟨0, 0, 0⟩)) :=
  all_zero_time_accepted miniDB utcName pytzUTC ⟨1, 1, 21⟩ [] rfl

end GPSClock
